import Mathlib

/-
Verification development for the pyBL integral-boundary-layer framework
(file pyBL/ibl_base.py).  The Python code is shallowly embedded over the
rationals: machine floats become rational numbers, numpy arrays become
lists, Python exceptions become an explicit error type, and the scipy
solve_ivp return value becomes an explicit record.  Every definition below
is translated from the corresponding place in the source; comments cite
the source lines.
-/

namespace IBL

/- Error model for the configuration paths of IBLBase.  Each tag stands for
one concrete Python exception raised (or relied upon) by ibl_base.py; the
exact message text is recorded next to the tag. -/
inductive PyMsg where
  | mustSpecifyUeForDU      -- ValueError "Must specify U_e if specifying dU_edx" (line 134)
  | mustSpecifyUeForD2U     -- ValueError "Must specify U_e if specifying d2U_edx2" (line 136)
  | secondNeedsFirst        -- ValueError "Can only pass second derivative if first derivative was specified" (line 185)
  | firstDerivNotCallable   -- ValueError "Must pass in callable object for first derivative if callable U_e given" (line 200)
  | firstElemNot1D          -- ValueError "First element of U_e 2-tuple must be 1D vector of distances" (line 229)
  | secondElemNot1D         -- ValueError "Second element of U_e 2-tuple must be 1D vector of Velocities" (line 231)
  | lengthMismatch          -- ValueError "Vectors in U_e 2-tuple must be of same length" (line 235)
  | tooFewPoints            -- ValueError "Must pass at least two points for edge velocity" (line 238)
  | unknownVelocitySpec     -- ValueError about not knowing how to use U_e to initialize velocity (line 245)
  | xNotIncreasing          -- ValueError raised by scipy CubicSpline when x is not strictly increasing
  | noLen                   -- TypeError raised by len() on an object without a length, e.g. a plain number
  | shapeIndexOut           -- IndexError raised by .shape[0] on a 0-dimensional numpy array
deriving DecidableEq

inductive PyError where
  | valueError (m : PyMsg)
  | typeError (m : PyMsg)
  | indexError (m : PyMsg)
deriving DecidableEq

/- Model of the numpy array obtained by np.asarray on an element of the
U_e 2-tuple: a 0-d array (from a number), a 1-d array with its values, or
a higher-dimensional array of which only the shape matters here. -/
inductive NpArr where
  | scalarA (v : ℚ)
  | oneD (vals : List ℚ)
  | highD (shape : List Nat)
deriving DecidableEq

def NpArr.ndim : NpArr → Nat
  | .scalarA _ => 0
  | .oneD _ => 1
  | .highD s => s.length

/- Model of .shape[0]: a 0-d array has an empty shape tuple, so indexing it
raises IndexError. -/
def NpArr.shape0 : NpArr → Except PyError Nat
  | .scalarA _ => .error (.indexError .shapeIndexOut)
  | .oneD vs => .ok vs.length
  | .highD s =>
    match s with
    | [] => .error (.indexError .shapeIndexOut)
    | d0 :: _ => .ok d0

def NpArr.vals1D : NpArr → List ℚ
  | .oneD vs => vs
  | _ => []

/- The U_e argument of set_velocity: a callable (with or without a
derivative method, line 189), a sequence (tuple or list, which has a
length), or a plain number (which has no length, so len(U_e) on line 222
raises TypeError). -/
inductive UeArg where
  | callableU (hasDerivMethod : Bool)
  | seq (elems : List NpArr)
  | num (v : ℚ)
deriving DecidableEq

/- The dU_edx and d2U_edx2 arguments: absent, a callable (with or without a
derivative method), or some non-callable value. -/
inductive DerivArg where
  | noneD
  | callableD (hasDerivMethod : Bool)
  | nonCallable
deriving DecidableEq

/- Provenance of the stored derivative functions _dU_edx and _d2U_edx2. -/
inductive DSrc where
  | userCallable
  | userNonCallable
  | derivMethod (n : Nat)                       -- f.derivative() or f.derivative(2)
  | finiteDiff (dx : ℚ) (n : Nat) (fdOrder : Nat) -- scipy.misc.derivative(f, x, dx, n=n, order=fdOrder)
deriving DecidableEq

/- Outcome of a successful set_velocity: whether U_e was rebuilt as a
CubicSpline from sample points, and where the two derivative functions
came from. -/
structure VelCfg where
  fromSpline : Bool
  duSrc : DSrc
  d2uSrc : DSrc
deriving DecidableEq

def markSpline : VelCfg → VelCfg
  | ⟨_, du, d2u⟩ => ⟨true, du, d2u⟩

/- The callable branch of set_velocity (lines 179-219). -/
def set_velocity_callable (uHasDeriv : Bool) (dU_edx d2U_edx2 : DerivArg) :
    Except PyError VelCfg :=
  match dU_edx with
  | .noneD =>
    match d2U_edx2 with
    | .noneD =>
      -- lines 188-197: use the derivative method of U_e when present,
      -- otherwise finite differences with step 1e-4, n = 1 or 2, order 3
      if uHasDeriv then .ok ⟨false, .derivMethod 1, .derivMethod 2⟩
      else .ok ⟨false, .finiteDiff ((1 : ℚ)/10000) 1 3, .finiteDiff ((1 : ℚ)/10000) 2 3⟩
    | _ => .error (.valueError .secondNeedsFirst) -- lines 184-186
  | .nonCallable => .error (.valueError .firstDerivNotCallable) -- lines 199-201
  | .callableD duHasDeriv =>
    match d2U_edx2 with
    | .noneD =>
      -- lines 205-212: derivative method of dU_edx when present, otherwise
      -- finite difference with the smaller step 1e-5
      if duHasDeriv then .ok ⟨false, .userCallable, .derivMethod 1⟩
      else .ok ⟨false, .userCallable, .finiteDiff ((1 : ℚ)/100000) 1 3⟩
    | .callableD _ => .ok ⟨false, .userCallable, .userCallable⟩
    | .nonCallable =>
      -- lines 213-219: the guard re-checks callable(dU_edx), not d2U_edx2,
      -- so a non-callable second derivative is stored without any error
      .ok ⟨false, .userCallable, .userNonCallable⟩

def strictlyIncreasing : List ℚ → Bool
  | [] => true
  | [_] => true
  | a :: b :: t => decide (a < b) && strictlyIncreasing (b :: t)

/- Input validation performed by scipy CubicSpline on line 241: the x data
must be strictly increasing, otherwise ValueError. -/
def CubicSpline_validate (x_pts : List ℚ) : Except PyError Unit :=
  if strictlyIncreasing x_pts then .ok () else .error (.valueError .xNotIncreasing)

/- The 2-tuple branch of set_velocity (lines 221-242).  Note the order of
operations from the source: npts = x_pts.shape[0] is evaluated on line 225
before the ndim checks, and the final recursive call set_velocity(spline)
passes only the spline, dropping any dU_edx and d2U_edx2 arguments. -/
def set_velocity_pair (x_pts U_e_pts : NpArr) : Except PyError VelCfg :=
  match x_pts.shape0 with
  | .error e => .error e
  | .ok npts =>
    if x_pts.ndim ≠ 1 then .error (.valueError .firstElemNot1D)
    else if U_e_pts.ndim ≠ 1 then .error (.valueError .secondElemNot1D)
    else
      match U_e_pts.shape0 with
      | .error e => .error e
      | .ok m =>
        if npts ≠ m then .error (.valueError .lengthMismatch)
        else if npts < 2 then .error (.valueError .tooFewPoints)
        else
          match CubicSpline_validate x_pts.vals1D with
          | .error e => .error e
          | .ok _ =>
            -- line 242: self.set_velocity(U_e_spline); the spline is
            -- callable and has a derivative method
            (set_velocity_callable true .noneD .noneD).map markSpline

/- IBLBase.set_velocity (lines 147-246). -/
def set_velocity (U_e : UeArg) (dU_edx d2U_edx2 : DerivArg) : Except PyError VelCfg :=
  match U_e with
  | .callableU h => set_velocity_callable h dU_edx d2U_edx2
  | .seq elems =>
    match elems with
    | [x_pts, U_e_pts] => set_velocity_pair x_pts U_e_pts
    | _ => .error (.valueError .unknownVelocitySpec) -- lines 243-246
  | .num _ => .error (.typeError .noLen) -- len(U_e) on line 222 with a number

/- The velocity handling of IBLBase.__init__ (lines 130-141). -/
def iblbase_init (U_e : Option UeArg) (dU_edx d2U_edx2 : DerivArg) :
    Except PyError (Option VelCfg) :=
  match U_e with
  | none =>
    if dU_edx ≠ .noneD then .error (.valueError .mustSpecifyUeForDU)
    else if d2U_edx2 ≠ .noneD then .error (.valueError .mustSpecifyUeForD2U)
    else .ok none
  | some u => (set_velocity u dU_edx d2U_edx2).map some

def isValueError {α : Type} : Except PyError α → Bool
  | .error (.valueError _) => true
  | _ => false

/- A termination event as seen by solve: IBLTermEventBase always sets
terminal = True (line 55), and event_info() returns the fixed pair
(code, reason). -/
structure IBLTermEvent where
  code : Int
  reason : String
deriving DecidableEq

/- The term_event argument of solve: None, a single event, or a list. -/
inductive TermEventArg where
  | noneT
  | single (e : IBLTermEvent)
  | listT (es : List IBLTermEvent)
deriving DecidableEq

/- Assembly of the kill_events list in solve (lines 275-286): internal
events first, then the extra events from the term_event argument. -/
def assembleKillEvents :
    Option (List IBLTermEvent) → TermEventArg → Option (List IBLTermEvent)
  | none, .noneT => none
  | some ke, .noneT => some ke
  | none, .single e => some [e]
  | some ke, .single e => some (ke ++ [e])
  | none, .listT es => some es
  | some ke, .listT es => some (ke ++ es)

/- Model of the scipy solve_ivp return value used by solve (line 288):
success flag, status (0 reached the end, 1 a terminal event fired,
negative on failure), diagnostic message, last accepted station t[-1],
dense output sol, and the per-event lists of event stations t_events. -/
structure OdeResult where
  success : Bool
  status : Int
  message : String
  tLast : ℚ
  sol : ℚ → List ℚ
  tEvents : List (List ℚ)

/- The y0i argument of solve: np.asarray(y0i).ndim == 0 exactly for a
scalar, which solve wraps as [y0i] (lines 271-273). -/
inductive Y0Arg where
  | scalarY (v : ℚ)
  | vectorY (vs : List ℚ)
deriving DecidableEq

def asY0 : Y0Arg → List ℚ
  | .scalarY v => [v]
  | .vectorY vs => vs

/- IBLResult (lines 22-43). -/
structure IBLResult where
  x_end : ℚ
  F_end : List ℚ
  status : Int
  message : String
  success : Bool
deriving DecidableEq

/- TERMINATION_MESSAGES dictionary (lines 16-19); .get returns None for a
status outside the table. -/
def TERMINATION_MESSAGES : Int → Option String := fun s =>
  if s = 0 then some ("Completed")
  else if s = -1 then some ("Separated")
  else if s = 1 then some ("Transition")
  else if s = -99 then some ("Unknown Event")
  else none

/- Python str-formats the value None as the text None; this renders the
result of TERMINATION_MESSAGES.get the way line 319 formats it. -/
def pyFormatOpt : Option String → String
  | some s => s
  | none => "None"

/- Final message assembly (lines 318-321). -/
def finalMessage (status : Int) (message : String) : String :=
  if message.length > 0 then pyFormatOpt (TERMINATION_MESSAGES status) ++ (": ") ++ message
  else pyFormatOpt (TERMINATION_MESSAGES status)

/- The loop on lines 309-314: scan rtn.t_events in registration order and
take the first event with a recorded station, together with its first
recorded station xe[0]. -/
def findEvent : List (List ℚ) → Option (Nat × ℚ)
  | [] => none
  | [] :: rest => (findEvent rest).map (fun p => (p.1 + 1, p.2))
  | (xe0 :: _) :: _ => some (0, xe0)

/- The found event paired with its station; kill_events[i] on line 313.
scipy guarantees that the index is within kill_events, since t_events has
one entry per registered event. -/
def eventOutcome (kill_events : List IBLTermEvent) (tEvents : List (List ℚ)) :
    Option (IBLTermEvent × ℚ) :=
  match findEvent tEvents with
  | none => none
  | some ir =>
    match kill_events[ir.1]? with
    | none => none
    | some ev => some (ev, ir.2)

/- The sequential reassignments of x_end, F_end, status, message on lines
293-317, as one quadruple. -/
def solveCore (xrange : ℚ × ℚ) (y0 : List ℚ) (kill_events : List IBLTermEvent)
    (rtn : OdeResult) : ℚ × List ℚ × Int × String :=
  if rtn.success then
    if rtn.status = 0 then (rtn.tLast, rtn.sol rtn.tLast, 0, "")
    else if rtn.status = 1 then
      match eventOutcome kill_events rtn.tEvents with
      | some er => (er.2, rtn.sol er.2, er.1.code, er.1.reason)
      | none => (xrange.1, y0, -99, "Event not found.")
    else (xrange.1, y0, -99, rtn.message)
  else (xrange.1, y0, -99, rtn.message)

/- Construction of the returned IBLResult (lines 292-323). -/
def solvePost (xrange : ℚ × ℚ) (y0 : List ℚ) (kill_events : List IBLTermEvent)
    (rtn : OdeResult) : IBLResult :=
  ⟨(solveCore xrange y0 kill_events rtn).1,
   (solveCore xrange y0 kill_events rtn).2.1,
   (solveCore xrange y0 kill_events rtn).2.2.1,
   finalMessage (solveCore xrange y0 kill_events rtn).2.2.1
     (solveCore xrange y0 kill_events rtn).2.2.2,
   rtn.success⟩

/- IBLBase.solve (lines 248-323).  The call to scipy solve_ivp is
abstracted as the solver argument, which receives exactly what line 288
passes: the station range, the normalized initial state, the assembled
kill_events, and the two tolerances. -/
def solve (solver : (ℚ × ℚ) → List ℚ → Option (List IBLTermEvent) → ℚ → ℚ → OdeResult)
    (internal_events : Option (List IBLTermEvent)) (xrange : ℚ × ℚ) (y0i : Y0Arg)
    (rtol atol : ℚ) (term_event : TermEventArg) : IBLResult :=
  solvePost xrange (asY0 y0i) ((assembleKillEvents internal_events term_event).getD [])
    (solver xrange (asY0 y0i) (assembleKillEvents internal_events term_event) rtol atol)

/- np.cumprod: running products of a list. -/
def cumprodAux (acc : ℚ) : List ℚ → List ℚ
  | [] => []
  | a :: t => (acc * a) :: cumprodAux (acc * a) t

def cumprod (l : List ℚ) : List ℚ := cumprodAux 1 l

def dot : List ℚ → List ℚ → ℚ
  | a :: as, b :: bs => a * b + dot as bs
  | _, _ => 0

def addVec : List ℚ → List ℚ → List ℚ
  | a :: as, b :: bs => (a + b) :: addVec as bs
  | _, _ => []

/- The data of one scipy RkDenseOutput segment, as used by IBLBase.y and
IBLBase.yp: t_old, h, order, y_old and the coefficient matrix Q. -/
structure RkDenseOutput where
  t_old : ℚ
  h : ℚ
  order : Nat
  y_old : List ℚ
  Q : List (List ℚ)
deriving DecidableEq

/- scipy RkDenseOutput evaluation at a station t (the call
self.dense_output_vec[j](x) on line 471): with x = (t - t_old)/h and
p = [x, x^2, ..., x^(order+1)] it returns y_old + h * (Q p). -/
def rk_call (d : RkDenseOutput) (t : ℚ) : List ℚ :=
  addVec d.y_old
    (d.Q.map fun qrow => d.h * dot qrow (cumprod (List.replicate (d.order + 1) ((t - d.t_old) / d.h))))

/- One entry of the segment bookkeeping used by IBLBase.y and IBLBase.yp:
the pair (x_vec[j], x_vec[j+1]) together with dense_output_vec[j]. -/
structure Seg where
  lo : ℚ
  hi : ℚ
  d : RkDenseOutput
deriving DecidableEq

/- One row of IBLBase.y (lines 463-474): scan the segments in order, and on
the first segment with x_vec[j] <= x <= x_vec[j+1] evaluate its dense
output; rows matching no segment keep their np.zeros initialization. -/
def y_row (n : Nat) : List Seg → ℚ → List ℚ
  | [], _ => List.replicate n 0
  | s :: rest, xi =>
    if s.lo ≤ xi ∧ xi ≤ s.hi then rk_call s.d xi else y_row n rest xi

/- IBLBase.y over an array of stations, n being len(self._ode.y). -/
def y (n : Nat) (segs : List Seg) (xs : List ℚ) : List (List ℚ) :=
  xs.map fun xi => y_row n segs xi

/- Elementwise division of two equal-length lists.  A zero divisor makes
the float computation on line 493 produce the 0/0 division artifact (NaN,
the error noted in the TODO referencing issue 21); that artifact is
modelled by the value none. -/
def divElem : List ℚ → List ℚ → Option (List ℚ)
  | [], [] => some []
  | a :: as, b :: bs =>
    if b = 0 then none
    else
      match divElem as bs with
      | none => none
      | some t => some ((a / b) :: t)
  | _, _ => none

/- Lines 490-493 of IBLBase.yp (scalar-station branch):
p = np.tile(xdist, order + 1); p = np.cumprod(p)/p. -/
def yp_p (order : Nat) (xdist : ℚ) : Option (List ℚ) :=
  divElem (cumprod (List.replicate (order + 1) xdist)) (List.replicate (order + 1) xdist)

/- np.dot(term2 * Q_row, p) with term2 = np.arange(1, order + 2)
(lines 498-501), accumulated with the running factor k + 1. -/
def weightedDot : List ℚ → List ℚ → Nat → ℚ
  | q :: qs, pv :: ps, k => ((k : ℚ) + 1) * q * pv + weightedDot qs ps (k + 1)
  | _, _, _ => 0

/- One row of IBLBase.yp (lines 476-505): locate the owning segment as in
y, compute xdist = (x - t_old)/h and the power list p, then dot the
weighted Q rows with p.  Unmatched rows keep their np.zeros
initialization. -/
def yp_row (n : Nat) : List Seg → ℚ → Option (List ℚ)
  | [], _ => some (List.replicate n 0)
  | s :: rest, xi =>
    if s.lo ≤ xi ∧ xi ≤ s.hi then
      match yp_p s.d.order ((xi - s.d.t_old) / s.d.h) with
      | none => none
      | some p => some (s.d.Q.map fun qrow => weightedDot qrow p 0)
    else yp_row n rest xi

/- IBLBase.yp over an array of stations. -/
def yp (n : Nat) (segs : List Seg) (xs : List ℚ) : List (Option (List ℚ)) :=
  xs.map fun xi => yp_row n segs xi

/- Model of the event bookkeeping inside scipy solve_ivp for one accepted
step, which produces the t_events that solve reads on line 309.  The input
is the list of active events - the registered events whose sign changed on
the step - as pairs of the registration index and the root-found station.
scipy sorts the roots with np.argsort (stable insertion sort here, which
is what numpy uses on such small arrays) and truncates after the first
terminal event; every event registered through IBLTermEventBase is
terminal (line 55), so the kept list is the first sorted pair alone. -/
def argsortInsert (p : Nat × ℚ) : List (Nat × ℚ) → List (Nat × ℚ)
  | [] => [p]
  | q :: t => if p.2 ≤ q.2 then p :: q :: t else q :: argsortInsert p t

def argsortPairs : List (Nat × ℚ) → List (Nat × ℚ)
  | [] => []
  | p :: t => argsortInsert p (argsortPairs t)

def handle_events (active : List (Nat × ℚ)) : List (Nat × ℚ) :=
  (argsortPairs active).take 1

/- scipy solve_ivp appends each kept root to t_events of its event: entry i
of the result collects the kept stations of event i.  Written by recursion
on the number of registered events, with j the index of the first entry. -/
def mk_t_events_from (j n : Nat) (kept : List (Nat × ℚ)) : List (List ℚ) :=
  match n with
  | 0 => []
  | m + 1 =>
    ((kept.filter fun p => p.1 == j).map Prod.snd) :: mk_t_events_from (j + 1) m kept

def mk_t_events (n : Nat) (kept : List (Nat × ℚ)) : List (List ℚ) :=
  mk_t_events_from 0 n kept

/- The first pair with minimal station, ties resolved to the earlier list
position.  Used only to state and prove what the sorted pipeline selects. -/
def firstMin : List (Nat × ℚ) → Option (Nat × ℚ)
  | [] => none
  | p :: t =>
    match firstMin t with
    | none => some p
    | some q => if p.2 ≤ q.2 then some p else some q

/- Concrete data used by the instantiation theorems below. -/

def exampleSol : ℚ → List ℚ := fun s => [s]

def constSolver (r : OdeResult) :
    (ℚ × ℚ) → List ℚ → Option (List IBLTermEvent) → ℚ → ℚ → OdeResult :=
  fun _ _ _ _ _ => r

def okResult : OdeResult := ⟨true, 0, "", 5, exampleSol, []⟩

def failResult : OdeResult :=
  ⟨false, -1, "Required step size is less than spacing between numbers.", 0, exampleSol, []⟩

def noEventResult : OdeResult :=
  ⟨true, 1, "A termination event occurred.", 3, exampleSol, [[], []]⟩

def ev0 : IBLTermEvent := ⟨-1, "Separation"⟩

def ev1 : IBLTermEvent := ⟨1, "Transition to turbulence"⟩

def evActive : List (Nat × ℚ) := [(0, 2), (1, 1)]

def evResult : OdeResult :=
  ⟨true, 1, "A termination event occurred.", 1, exampleSol,
   mk_t_events 2 (handle_events evActive)⟩

def seg01 : Seg := ⟨0, 1, ⟨0, 1, 3, [0], [[1, 0, 0, 0]]⟩⟩

/-- C3: the claim asks that a dense-output state query outside the solved
range fail with a range error; the code instead leaves the np.zeros
initialization in place and silently returns a zero-filled row for a
station outside every segment, while an in-range station is evaluated
normally.  With the single solved segment being the interval from 0 to 1,
the queries at 2 and at -1 return the sentinel row of zeros. -/
theorem y_out_of_range_returns_zeros :
    y 1 [seg01] [2] = [[0]] ∧ y 1 [seg01] [-1] = [[0]] ∧
      y 1 [seg01] [(1 : ℚ)/2] = [[(1 : ℚ)/2]] := by
  refine ⟨?_, ?_, ?_⟩ <;>
    norm_num [y, y_row, seg01, rk_call, cumprod, cumprodAux, dot, addVec, List.replicate]

/-- C4: the claim asks that the dense-output derivative query at a
station whose local normalized offset is zero be well-defined with no
division by zero; the code computes p = cumprod(tile(xdist))/tile(xdist)
on line 493, which divides by zero when xdist = 0 (the error noted in the
TODO referencing issue 21).  At the left endpoint of the segment from 0 to
1 the query hits that division (modelled as none), while at offset 1/2 the
same formula returns the correct polynomial derivative. -/
theorem yp_zero_offset_division_by_zero :
    yp 1 [seg01] [0] = [none] ∧ yp 1 [seg01] [(1 : ℚ)/2] = [some [1]] := by
  refine ⟨?_, ?_⟩ <;>
    norm_num [yp, yp_row, yp_p, seg01, divElem, cumprod, cumprodAux, weightedDot,
      List.replicate]

/-- C7 counterexample: a configuration that supplies a second-derivative
argument without a first-derivative argument, with the velocity given as a
2-element array pair, does not fail at all: set_velocity rebuilds the
velocity from a CubicSpline and silently drops the supplied derivative
arguments (line 242 recurses with the spline alone). -/
theorem set_velocity_pair_with_d2u_counterexample :
    iblbase_init (some (UeArg.seq [NpArr.oneD [0, 1], NpArr.oneD [1, 2]]))
        DerivArg.noneD (DerivArg.callableD false)
      = Except.ok (some ⟨true, DSrc.derivMethod 1, DSrc.derivMethod 2⟩) ∧
      isValueError (iblbase_init (some (UeArg.seq [NpArr.oneD [0, 1], NpArr.oneD [1, 2]]))
        DerivArg.noneD (DerivArg.callableD false)) = false :=
  ⟨rfl, rfl⟩

/-- C7 (amended): supplying a second-derivative argument without a
first-derivative argument fails with a ValueError when the velocity value
argument is absent or is a callable; when the value is a 2-element array
pair the derivative arguments are silently ignored instead. -/
theorem init_d2u_without_du_valueerror (U_e : Option UeArg) (dU_edx d2U_edx2 : DerivArg)
    (hdu : dU_edx = DerivArg.noneD) (hd2u : d2U_edx2 ≠ DerivArg.noneD)
    (hUe : U_e = none ∨ ∃ b, U_e = some (UeArg.callableU b)) :
    ∃ m, iblbase_init U_e dU_edx d2U_edx2 = Except.error (PyError.valueError m) := by
  subst hdu
  rcases hUe with h | ⟨b, h⟩ <;> subst h
  · refine ⟨PyMsg.mustSpecifyUeForD2U, ?_⟩
    simp [iblbase_init, hd2u]
  · refine ⟨PyMsg.secondNeedsFirst, ?_⟩
    cases d2U_edx2 with
    | noneD => exact absurd rfl hd2u
    | callableD hb => rfl
    | nonCallable => rfl

/-- Witness for the amended C7 theorem: a callable velocity with a second
derivative supplied and no first derivative fails with a ValueError. -/
theorem init_d2u_without_du_valueerror_witness :
    ∃ m, iblbase_init (some (UeArg.callableU false)) DerivArg.noneD (DerivArg.callableD false)
      = Except.error (PyError.valueError m) :=
  init_d2u_without_du_valueerror _ _ _ rfl (by decide) (Or.inr ⟨false, rfl⟩)

/-- C8 counterexample: a plain number as the U_e argument fails with a
TypeError (len() of a number on line 222), not with a ValueError-class
error as the claim states. -/
theorem set_velocity_number_typeerror_counterexample :
    set_velocity (UeArg.num 5) DerivArg.noneD DerivArg.noneD
        = Except.error (PyError.typeError PyMsg.noLen) ∧
      isValueError (set_velocity (UeArg.num 5) DerivArg.noneD DerivArg.noneD) = false :=
  ⟨rfl, rfl⟩

/-- C8 (amended): a non-callable sequence argument whose length is not 2
fails with the unrecognized-velocity ValueError of lines 243-246; a plain
number instead fails with a TypeError from len(). -/
theorem set_velocity_unrecognized_spec (elems : List NpArr) (dU d2U : DerivArg)
    (h : elems.length ≠ 2) :
    set_velocity (UeArg.seq elems) dU d2U
      = Except.error (PyError.valueError PyMsg.unknownVelocitySpec) := by
  cases elems with
  | nil => rfl
  | cons a t =>
    cases t with
    | nil => rfl
    | cons b t2 =>
      cases t2 with
      | nil => exact absurd rfl h
      | cons c t3 => rfl

/-- Witness for the amended C8 theorem: a 3-element sequence fails with
the unrecognized-velocity ValueError. -/
theorem set_velocity_unrecognized_spec_witness :
    set_velocity (UeArg.seq [NpArr.scalarA 1, NpArr.scalarA 2, NpArr.scalarA 3])
        DerivArg.noneD DerivArg.noneD
      = Except.error (PyError.valueError PyMsg.unknownVelocitySpec) :=
  set_velocity_unrecognized_spec _ _ _ (by decide)

/-- C10: a scalar (0-dimensional) initial state is wrapped by solve into
the one-element state vector before integration (lines 271-273), so solve
on the scalar produces exactly the same IBLResult as solve on the
one-element vector, whatever the underlying solver does. -/
theorem solve_scalar_y0_wrapped
    (solver : (ℚ × ℚ) → List ℚ → Option (List IBLTermEvent) → ℚ → ℚ → OdeResult)
    (internal_events : Option (List IBLTermEvent)) (xrange : ℚ × ℚ) (c : ℚ)
    (rtol atol : ℚ) (term_event : TermEventArg) :
    asY0 (Y0Arg.scalarY c) = [c] ∧
    solve solver internal_events xrange (Y0Arg.scalarY c) rtol atol term_event
      = solve solver internal_events xrange (Y0Arg.vectorY [c]) rtol atol term_event :=
  ⟨rfl, rfl⟩

/- The scan of lines 309-314 finds nothing when every registered event has
an empty list of recorded stations. -/
/- A nonempty string has positive length. -/
theorem string_length_pos (s : String) (hs : s ≠ "") : 0 < s.length := by
  refine Nat.pos_of_ne_zero fun h0 => hs ?_
  cases s with
  | mk data =>
    have hdata : data = [] := List.length_eq_zero.mp h0
    subst hdata
    rfl

theorem findEvent_all_nil : ∀ L : List (List ℚ), (∀ l ∈ L, l = []) → findEvent L = none
  | [], _ => rfl
  | l :: t, h => by
    have hl : l = [] := h l (List.mem_cons_self l t)
    subst hl
    have ht : findEvent t = none :=
      findEvent_all_nil t (fun m hm => h m (List.mem_cons_of_mem _ hm))
    simp [findEvent, ht]

/-- C1: when the underlying solver succeeds and reports status 0 (no
registered termination event fired before the end of the station range,
so integration reached the end, with t[-1] equal to the end station), the
returned IBLResult has status 0 (Completed), end station equal to the end
of the range, end state equal to the dense-output evaluation there, and
success true. -/
theorem solve_completed_reaches_end
    (solver : (ℚ × ℚ) → List ℚ → Option (List IBLTermEvent) → ℚ → ℚ → OdeResult)
    (internal_events : Option (List IBLTermEvent)) (xrange : ℚ × ℚ) (y0i : Y0Arg)
    (rtol atol : ℚ) (term_event : TermEventArg)
    (hs : (solver xrange (asY0 y0i) (assembleKillEvents internal_events term_event)
      rtol atol).success = true)
    (h0 : (solver xrange (asY0 y0i) (assembleKillEvents internal_events term_event)
      rtol atol).status = 0)
    (hend : (solver xrange (asY0 y0i) (assembleKillEvents internal_events term_event)
      rtol atol).tLast = xrange.2) :
    (solve solver internal_events xrange y0i rtol atol term_event).status = 0 ∧
    (solve solver internal_events xrange y0i rtol atol term_event).x_end = xrange.2 ∧
    (solve solver internal_events xrange y0i rtol atol term_event).F_end
      = (solver xrange (asY0 y0i) (assembleKillEvents internal_events term_event)
          rtol atol).sol xrange.2 ∧
    (solve solver internal_events xrange y0i rtol atol term_event).success = true := by
  have key : solveCore xrange (asY0 y0i)
      ((assembleKillEvents internal_events term_event).getD [])
      (solver xrange (asY0 y0i) (assembleKillEvents internal_events term_event) rtol atol)
      = (xrange.2,
         (solver xrange (asY0 y0i) (assembleKillEvents internal_events term_event)
           rtol atol).sol xrange.2, 0, "") := by
    simp [solveCore, hs, h0, hend]
  refine ⟨?_, ?_, ?_, ?_⟩ <;> simp [solve, solvePost, key, hs]

/-- Witness for the C1 theorem at a concrete solver run over the range
from 0 to 5. -/
theorem solve_completed_reaches_end_witness :
    (solve (constSolver okResult) none (0, 5) (Y0Arg.vectorY [1]) 1 1
      TermEventArg.noneT).status = 0 ∧
    (solve (constSolver okResult) none (0, 5) (Y0Arg.vectorY [1]) 1 1
      TermEventArg.noneT).x_end = 5 ∧
    (solve (constSolver okResult) none (0, 5) (Y0Arg.vectorY [1]) 1 1
      TermEventArg.noneT).F_end = [5] ∧
    (solve (constSolver okResult) none (0, 5) (Y0Arg.vectorY [1]) 1 1
      TermEventArg.noneT).success = true :=
  solve_completed_reaches_end (constSolver okResult) none (0, 5) (Y0Arg.vectorY [1])
    1 1 TermEventArg.noneT rfl rfl rfl

/-- C5: when the underlying adaptive solver fails, solve still returns an
IBLResult (it is a total function of the solver outcome), with status -99,
success false, and a message that carries the underlying solver diagnostic
after the status label. -/
theorem solve_solver_failure_result
    (solver : (ℚ × ℚ) → List ℚ → Option (List IBLTermEvent) → ℚ → ℚ → OdeResult)
    (internal_events : Option (List IBLTermEvent)) (xrange : ℚ × ℚ) (y0i : Y0Arg)
    (rtol atol : ℚ) (term_event : TermEventArg)
    (hf : (solver xrange (asY0 y0i) (assembleKillEvents internal_events term_event)
      rtol atol).success = false)
    (hm : (solver xrange (asY0 y0i) (assembleKillEvents internal_events term_event)
      rtol atol).message ≠ "") :
    (solve solver internal_events xrange y0i rtol atol term_event).status = -99 ∧
    (solve solver internal_events xrange y0i rtol atol term_event).success = false ∧
    (solve solver internal_events xrange y0i rtol atol term_event).message
      = ("Unknown Event: ")
        ++ (solver xrange (asY0 y0i) (assembleKillEvents internal_events term_event)
              rtol atol).message := by
  have hlen : 0 < (solver xrange (asY0 y0i)
      (assembleKillEvents internal_events term_event) rtol atol).message.length :=
    string_length_pos _ hm
  have key : solveCore xrange (asY0 y0i)
      ((assembleKillEvents internal_events term_event).getD [])
      (solver xrange (asY0 y0i) (assembleKillEvents internal_events term_event) rtol atol)
      = (xrange.1, asY0 y0i, -99,
         (solver xrange (asY0 y0i) (assembleKillEvents internal_events term_event)
           rtol atol).message) := by
    simp [solveCore, hf]
  refine ⟨?_, ?_, ?_⟩ <;>
    simp [solve, solvePost, key, hf, finalMessage, hlen, TERMINATION_MESSAGES, pyFormatOpt]

/-- Witness for the C5 theorem at a concrete failing solver run. -/
theorem solve_solver_failure_result_witness :
    (solve (constSolver failResult) none (0, 5) (Y0Arg.vectorY [1]) 1 1
      TermEventArg.noneT).status = -99 ∧
    (solve (constSolver failResult) none (0, 5) (Y0Arg.vectorY [1]) 1 1
      TermEventArg.noneT).success = false ∧
    (solve (constSolver failResult) none (0, 5) (Y0Arg.vectorY [1]) 1 1
      TermEventArg.noneT).message
      = ("Unknown Event: Required step size is less than spacing between numbers.") :=
  solve_solver_failure_result (constSolver failResult) none (0, 5) (Y0Arg.vectorY [1])
    1 1 TermEventArg.noneT rfl (by decide)

/-- C6: when the solver signals an event-triggered stop (status 1) but no
registered event has a recorded crossing station, the returned IBLResult
has status -99 and its message is the Unknown Event label followed by
Event not found. -/
theorem solve_unknown_event_result
    (solver : (ℚ × ℚ) → List ℚ → Option (List IBLTermEvent) → ℚ → ℚ → OdeResult)
    (internal_events : Option (List IBLTermEvent)) (xrange : ℚ × ℚ) (y0i : Y0Arg)
    (rtol atol : ℚ) (term_event : TermEventArg)
    (hs : (solver xrange (asY0 y0i) (assembleKillEvents internal_events term_event)
      rtol atol).success = true)
    (h1 : (solver xrange (asY0 y0i) (assembleKillEvents internal_events term_event)
      rtol atol).status = 1)
    (hte : ∀ l ∈ (solver xrange (asY0 y0i) (assembleKillEvents internal_events term_event)
      rtol atol).tEvents, l = []) :
    (solve solver internal_events xrange y0i rtol atol term_event).status = -99 ∧
    (solve solver internal_events xrange y0i rtol atol term_event).message
      = ("Unknown Event: Event not found.") := by
  have hfe := findEvent_all_nil _ hte
  have key : solveCore xrange (asY0 y0i)
      ((assembleKillEvents internal_events term_event).getD [])
      (solver xrange (asY0 y0i) (assembleKillEvents internal_events term_event) rtol atol)
      = (xrange.1, asY0 y0i, -99, "Event not found.") := by
    simp [solveCore, hs, h1, eventOutcome, hfe]
  refine ⟨?_, ?_⟩
  · simp [solve, solvePost, key]
  · simp [solve, solvePost, key, finalMessage, TERMINATION_MESSAGES, pyFormatOpt]
    decide

/-- Witness for the C6 theorem at a concrete solver run that signals an
event stop with empty per-event station lists. -/
theorem solve_unknown_event_result_witness :
    (solve (constSolver noEventResult) (some [ev0]) (0, 5) (Y0Arg.vectorY [1]) 1 1
      TermEventArg.noneT).status = -99 ∧
    (solve (constSolver noEventResult) (some [ev0]) (0, 5) (Y0Arg.vectorY [1]) 1 1
      TermEventArg.noneT).message = ("Unknown Event: Event not found.") :=
  solve_unknown_event_result (constSolver noEventResult) (some [ev0]) (0, 5)
    (Y0Arg.vectorY [1]) 1 1 TermEventArg.noneT rfl rfl (by decide)

/-- C9: when the underlying solver reports failure, the returned IBLResult
keeps the initialization of lines 294-295: the end station is the start of
the supplied range and the end state is the supplied (normalized) initial
state. -/
theorem solve_failure_reports_initial_point
    (solver : (ℚ × ℚ) → List ℚ → Option (List IBLTermEvent) → ℚ → ℚ → OdeResult)
    (internal_events : Option (List IBLTermEvent)) (xrange : ℚ × ℚ) (y0i : Y0Arg)
    (rtol atol : ℚ) (term_event : TermEventArg)
    (hf : (solver xrange (asY0 y0i) (assembleKillEvents internal_events term_event)
      rtol atol).success = false) :
    (solve solver internal_events xrange y0i rtol atol term_event).x_end = xrange.1 ∧
    (solve solver internal_events xrange y0i rtol atol term_event).F_end = asY0 y0i := by
  have key : solveCore xrange (asY0 y0i)
      ((assembleKillEvents internal_events term_event).getD [])
      (solver xrange (asY0 y0i) (assembleKillEvents internal_events term_event) rtol atol)
      = (xrange.1, asY0 y0i, -99,
         (solver xrange (asY0 y0i) (assembleKillEvents internal_events term_event)
           rtol atol).message) := by
    simp [solveCore, hf]
  constructor <;> simp [solve, solvePost, key]

/-- Witness for the C9 theorem at a concrete failing solver run. -/
theorem solve_failure_reports_initial_point_witness :
    (solve (constSolver failResult) none (0, 5) (Y0Arg.vectorY [1]) 1 1
      TermEventArg.noneT).x_end = 0 ∧
    (solve (constSolver failResult) none (0, 5) (Y0Arg.vectorY [1]) 1 1
      TermEventArg.noneT).F_end = [1] :=
  solve_failure_reports_initial_point (constSolver failResult) none (0, 5)
    (Y0Arg.vectorY [1]) 1 1 TermEventArg.noneT rfl

/- The selection returned by firstMin is an element of the list. -/
theorem firstMin_mem (l : List (Nat × ℚ)) : ∀ q, firstMin l = some q → q ∈ l := by
  induction l with
  | nil => intro q h; simp [firstMin] at h
  | cons p t ih =>
    intro q h
    simp only [firstMin] at h
    cases hft : firstMin t with
    | none =>
      rw [hft] at h
      injection h with h
      subst h
      exact List.mem_cons_self p t
    | some q0 =>
      rw [hft] at h
      have h2 : (if p.2 ≤ q0.2 then some p else some q0) = some q := h
      by_cases hle : p.2 ≤ q0.2
      · rw [if_pos hle] at h2
        injection h2 with h2
        subst h2
        exact List.mem_cons_self p t
      · rw [if_neg hle] at h2
        injection h2 with h2
        subst h2
        exact List.mem_cons_of_mem p (ih q0 hft)

/- On a list with strictly increasing indices, firstMin returns exactly
the pair with the smallest station, ties resolved to the smallest index. -/
theorem firstMin_eq (l : List (Nat × ℚ)) (i : Nat) (r : ℚ) :
    l.Pairwise (fun a b => a.1 < b.1) → (i, r) ∈ l →
    (∀ p ∈ l, r ≤ p.2) → (∀ p ∈ l, p.2 = r → i ≤ p.1) →
    firstMin l = some (i, r) := by
  induction l with
  | nil => intro _ hmem _ _; simp at hmem
  | cons p t ih =>
    intro hinc hmem hmin htie
    have hPt : ∀ b ∈ t, p.1 < b.1 := (List.pairwise_cons.mp hinc).1
    have hinct : t.Pairwise (fun a b => a.1 < b.1) := (List.pairwise_cons.mp hinc).2
    rcases List.mem_cons.mp hmem with heq | hmemt
    · subst heq
      simp only [firstMin]
      cases hft : firstMin t with
      | none => rfl
      | some q0 =>
        have hq0 : q0 ∈ t := firstMin_mem t q0 hft
        have hrq : r ≤ q0.2 := hmin q0 (List.mem_cons_of_mem _ hq0)
        show (if r ≤ q0.2 then some (i, r) else some q0) = some (i, r)
        rw [if_pos hrq]
    · have ihe : firstMin t = some (i, r) :=
        ih hinct hmemt (fun q hq => hmin q (List.mem_cons_of_mem _ hq))
          (fun q hq hqr => htie q (List.mem_cons_of_mem _ hq) hqr)
      simp only [firstMin, ihe]
      have hnotle : ¬ (p.2 ≤ r) := by
        intro hle
        have hrp : r ≤ p.2 := hmin p (List.mem_cons_self p t)
        have hpr : p.2 = r := le_antisymm hle hrp
        have hip : i ≤ p.1 := htie p (List.mem_cons_self p t) hpr
        have hpi : p.1 < i := hPt (i, r) hmemt
        omega
      show (if p.2 ≤ r then some p else some (i, r)) = some (i, r)
      rw [if_neg hnotle]

/- The head of a stable insertion step. -/
theorem argsortInsert_head (p : Nat × ℚ) (l : List (Nat × ℚ)) :
    (argsortInsert p l).head? = some (
      match l.head? with
      | none => p
      | some q => if p.2 ≤ q.2 then p else q) := by
  cases l with
  | nil => rfl
  | cons q t =>
    by_cases hle : p.2 ≤ q.2
    · simp [argsortInsert, hle]
    · simp [argsortInsert, hle]

/- The head of the stable sort is the first minimum of the input. -/
theorem argsortPairs_head (l : List (Nat × ℚ)) :
    (argsortPairs l).head? = firstMin l := by
  induction l with
  | nil => rfl
  | cons p t ih =>
    simp only [argsortPairs, argsortInsert_head, ih, firstMin]
    cases hft : firstMin t with
    | none => rfl
    | some q => by_cases hle : p.2 ≤ q.2 <;> simp [hle]

/- With every registered event terminal, the kept list of the scipy event
handling is exactly the first minimum of the active pairs. -/
theorem handle_events_single (l : List (Nat × ℚ)) (i : Nat) (r : ℚ)
    (h : firstMin l = some (i, r)) : handle_events l = [(i, r)] := by
  have hh : (argsortPairs l).head? = some (i, r) := by rw [argsortPairs_head, h]
  cases hl : argsortPairs l with
  | nil => rw [hl] at hh; simp at hh
  | cons a s =>
    rw [hl] at hh
    simp only [List.head?_cons, Option.some.injEq] at hh
    subst hh
    simp [handle_events, hl]

/- Scanning the t_events built from a single kept pair finds that pair. -/
theorem findEvent_mk_from (n : Nat) : ∀ (j i : Nat) (r : ℚ), j ≤ i → i < j + n →
    findEvent (mk_t_events_from j n [(i, r)]) = some (i - j, r) := by
  induction n with
  | zero => intro j i r hji hin; exact absurd hin (by omega)
  | succ m ih =>
    intro j i r hji hin
    by_cases hij : i = j
    · subst hij
      simp [mk_t_events_from, List.filter_cons, findEvent]
    · have ihe := ih (j + 1) i r (by omega) (by omega)
      simp [mk_t_events_from, List.filter_cons, beq_iff_eq, hij, findEvent, ihe]
      omega

theorem findEvent_mk (n i : Nat) (r : ℚ) (h : i < n) :
    findEvent (mk_t_events n [(i, r)]) = some (i, r) := by
  have hfrom := findEvent_mk_from n 0 i r (Nat.zero_le i) (by omega)
  simpa [mk_t_events] using hfrom

/-- C2: when two or more registered terminal events change sign within the
same accepted step, the active pairs of registration index and root-found
station are sorted by scipy and truncated at the earliest terminal event,
and the solve scan then reports exactly the event with the smallest
triggering station - ties broken by registration order, which places
internal events before extra events because assembleKillEvents
concatenates them in that order.  The returned IBLResult carries the
root-found station of that event, the dense evaluation there, and the
status and message from the event_info of that event. -/
theorem solve_event_precedence
    (solver : (ℚ × ℚ) → List ℚ → Option (List IBLTermEvent) → ℚ → ℚ → OdeResult)
    (internal_events : Option (List IBLTermEvent)) (xrange : ℚ × ℚ) (y0i : Y0Arg)
    (rtol atol : ℚ) (term_event : TermEventArg)
    (kev : List IBLTermEvent) (active : List (Nat × ℚ)) (istar : Nat) (rstar : ℚ)
    (ev : IBLTermEvent)
    (hkev : assembleKillEvents internal_events term_event = some kev)
    (_hlen : 2 ≤ active.length)
    (hinc : active.Pairwise (fun a b => a.1 < b.1))
    (hidx : ∀ p ∈ active, p.1 < kev.length)
    (hmem : (istar, rstar) ∈ active)
    (hmin : ∀ p ∈ active, rstar ≤ p.2)
    (htie : ∀ p ∈ active, p.2 = rstar → istar ≤ p.1)
    (hev : kev[istar]? = some ev)
    (hs : (solver xrange (asY0 y0i) (assembleKillEvents internal_events term_event)
      rtol atol).success = true)
    (h1 : (solver xrange (asY0 y0i) (assembleKillEvents internal_events term_event)
      rtol atol).status = 1)
    (hte : (solver xrange (asY0 y0i) (assembleKillEvents internal_events term_event)
      rtol atol).tEvents = mk_t_events kev.length (handle_events active)) :
    (solve solver internal_events xrange y0i rtol atol term_event).x_end = rstar ∧
    (solve solver internal_events xrange y0i rtol atol term_event).status = ev.code ∧
    (solve solver internal_events xrange y0i rtol atol term_event).message
      = finalMessage ev.code ev.reason ∧
    (solve solver internal_events xrange y0i rtol atol term_event).F_end
      = (solver xrange (asY0 y0i) (assembleKillEvents internal_events term_event)
          rtol atol).sol rstar := by
  have hfm : firstMin active = some (istar, rstar) :=
    firstMin_eq active istar rstar hinc hmem hmin htie
  have hhe : handle_events active = [(istar, rstar)] :=
    handle_events_single active istar rstar hfm
  have histar : istar < kev.length := hidx (istar, rstar) hmem
  have hfe : findEvent (solver xrange (asY0 y0i)
      (assembleKillEvents internal_events term_event) rtol atol).tEvents
      = some (istar, rstar) := by
    rw [hte, hhe]
    exact findEvent_mk kev.length istar rstar histar
  have heo : eventOutcome ((assembleKillEvents internal_events term_event).getD [])
      (solver xrange (asY0 y0i) (assembleKillEvents internal_events term_event)
        rtol atol).tEvents = some (ev, rstar) := by
    unfold eventOutcome
    rw [hfe]
    simp [hkev, hev]
  have key : solveCore xrange (asY0 y0i)
      ((assembleKillEvents internal_events term_event).getD [])
      (solver xrange (asY0 y0i) (assembleKillEvents internal_events term_event) rtol atol)
      = (rstar,
         (solver xrange (asY0 y0i) (assembleKillEvents internal_events term_event)
           rtol atol).sol rstar, ev.code, ev.reason) := by
    simp [solveCore, hs, h1, heo]
  refine ⟨?_, ?_, ?_, ?_⟩ <;> simp [solve, solvePost, key]

/-- Witness for the C2 theorem: the internal separation event is
registered first but crosses at station 2, the extra transition event
crosses at station 1 within the same step, and the result reports the
transition event at station 1. -/
theorem solve_event_precedence_witness :
    (solve (constSolver evResult) (some [ev0]) (0, 5) (Y0Arg.vectorY [1]) 1 1
      (TermEventArg.single ev1)).x_end = 1 ∧
    (solve (constSolver evResult) (some [ev0]) (0, 5) (Y0Arg.vectorY [1]) 1 1
      (TermEventArg.single ev1)).status = 1 ∧
    (solve (constSolver evResult) (some [ev0]) (0, 5) (Y0Arg.vectorY [1]) 1 1
      (TermEventArg.single ev1)).message = ("Transition: Transition to turbulence") ∧
    (solve (constSolver evResult) (some [ev0]) (0, 5) (Y0Arg.vectorY [1]) 1 1
      (TermEventArg.single ev1)).F_end = [1] :=
  solve_event_precedence (constSolver evResult) (some [ev0]) (0, 5) (Y0Arg.vectorY [1])
    1 1 (TermEventArg.single ev1) [ev0, ev1] evActive 1 1 ev1 rfl (by decide)
    (by decide) (by decide) (by decide) (by decide) (by decide) rfl rfl rfl rfl

end IBL
